import Mathlib

/-!
Shallow embedding of the column-detailing engine of the Auto-cad-detailer
repository (geometry calculator, entity model, section generator, validation),
together with theorems settling the specification claims.

Python floats are modelled as exact rationals (`ℚ`) wherever the source only
uses field operations; the entity rebar model, which takes square roots and
uses `math.pi`, is modelled over `ℝ`.  Python `while` loops are translated as
fuel-indexed structural recursions; the fuel computed by `zoneFuel` strictly
exceeds the number of iterations the Python loop performs (theorem
`stirrupZoneRun_eq` certifies that the fueled translation satisfies exactly
the while-loop unfolding equation), so the translation agrees with the source
loop whenever the loop terminates (positive spacing).
-/

namespace AutoCad

/-- Embedding of `excel_reader.ColumnSettings` (Python dataclass). -/
structure ColumnSettings where
  beam_depth : ℚ
  beam_extension : ℚ
  concrete_cover : ℚ
  scale : ℚ
  spacing_between_columns : ℚ
  foundation_depth : ℚ
  foundation_cover : ℚ
  section_scale : ℚ
  is_foundation_string : Bool := false
  deriving Repr, DecidableEq

/-- Embedding of `excel_reader.FloorData` (Python dataclass); rebar counts are
Python `int`s, hence `ℤ`. -/
structure FloorData where
  total_height : ℚ
  column_length : ℚ
  column_width : ℚ
  floor_name : String
  rebar_amount : ℤ
  rebar_amount_x : ℤ
  rebar_amount_y : ℤ
  rebar_diameter : ℚ
  edge_stirrup_spacing : ℚ
  mid_stirrup_spacing : ℚ
  stirrup_diameter : ℚ
  section_number : ℤ := 0
  deriving Repr, DecidableEq

/-- Embedding of `column_calculator.ColumnGeometry` (result dataclass).
The base point is the tuple `(x, y, z)`. -/
structure ColumnGeometry where
  base_point : ℚ × ℚ × ℚ
  total_height : ℚ
  floor_heights : List ℚ
  floor_levels : List ℚ
  column_boundaries : List (ℚ × ℚ)
  deriving Repr, DecidableEq

/-- Embedding of `column_calculator.RebarLayout` (result dataclass):
main bars `(x, start_y, end_y, diameter)`, stirrup positions
`(y, spacing_type, diameter)`, lap lengths `(y_position, length, diameter)`. -/
structure RebarLayout where
  main_bars : List (ℚ × ℚ × ℚ × ℚ)
  stirrup_positions : List (ℚ × String × ℚ)
  lap_lengths : List (ℚ × ℚ × ℚ)
  deriving Repr, DecidableEq

/-- The running loop of the `floor_levels` accumulation in
`ColumnCalculator.calculate_column_geometry`: starting from `cur`, emit
`cur + h` for each height, carrying the running sum. -/
def levelsFrom (cur : ℚ) : List ℚ → List ℚ
  | [] => []
  | h :: hs => (cur + h) :: levelsFrom (cur + h) hs

/-- Embedding of `ColumnCalculator.calculate_column_geometry`.  The `settings`
argument is kept (the Python signature takes it) although the body never
reads it. -/
def calculateColumnGeometry (floors : List FloorData) (_settings : ColumnSettings)
    (base_point : ℚ × ℚ × ℚ) : ColumnGeometry :=
  let base_x := base_point.1
  let base_y := base_point.2.1
  let floor_heights := floors.map (fun f => f.total_height)
  { base_point := base_point
    total_height := floor_heights.sum
    floor_heights := floor_heights
    floor_levels := base_y :: levelsFrom base_y floor_heights
    column_boundaries :=
      floors.map (fun f => (base_x - f.column_length / 2, base_x + f.column_length / 2)) }

/-- Fuel-indexed translation of one stirrup-placement `while` loop of
`ColumnCalculator._calculate_stirrups`: starting at `cur`, append
`(cur, zone, d)` and step by `spacing` while `cur < bound`. -/
def stirrupZoneFuel (spacing bound : ℚ) (zone : String) (d : ℚ) :
    ℕ → ℚ → List (ℚ × String × ℚ)
  | 0, _ => []
  | n + 1, cur =>
    if cur < bound then (cur, zone, d) :: stirrupZoneFuel spacing bound zone d n (cur + spacing)
    else []

/-- Fuel large enough for a `while cur < bound` loop stepping by `spacing`:
one more than the iteration count `⌈(bound - cur) / spacing⌉`.  For a
non-positive spacing the Python loop would not terminate (undefined behaviour);
the translation returns the empty run there. -/
def zoneFuel (spacing bound cur : ℚ) : ℕ :=
  if 0 < spacing then (Int.ceil ((bound - cur) / spacing)).toNat + 1 else 0

/-- One full stirrup zone loop of `_calculate_stirrups`, run to completion. -/
def stirrupZoneRun (spacing bound : ℚ) (zone : String) (d : ℚ) (cur : ℚ) :
    List (ℚ × String × ℚ) :=
  stirrupZoneFuel spacing bound zone d (zoneFuel spacing bound cur) cur

/-- Embedding of `ColumnCalculator._calculate_stirrups`: three `while` loops
over the bottom, middle and top thirds of the net height; the top loop runs
to `base_y + height` (the source comment: including the beam zone). -/
def calculateStirrups (floor : FloorData) (base_y height beam_depth : ℚ) :
    List (ℚ × String × ℚ) :=
  let net_height := height - beam_depth
  let third_height := net_height / 3
  stirrupZoneRun floor.edge_stirrup_spacing (base_y + third_height) "edge"
      floor.stirrup_diameter (base_y + floor.edge_stirrup_spacing)
    ++ stirrupZoneRun floor.mid_stirrup_spacing (base_y + 2 * third_height) "mid"
      floor.stirrup_diameter (base_y + third_height + floor.mid_stirrup_spacing)
    ++ stirrupZoneRun floor.edge_stirrup_spacing (base_y + height) "edge"
      floor.stirrup_diameter (base_y + 2 * third_height + floor.edge_stirrup_spacing)

/-- Embedding of `ColumnCalculator._calculate_lap_length`:
`max(40 * bar_diameter, 300)`. -/
def calculateLapLength (bar_diameter : ℚ) : ℚ :=
  max (40 * bar_diameter) 300

/-- Embedding of `ColumnCalculator._calculate_main_bars`: two edge bars at
cover distance inside each boundary, plus, when `rebar_amount_x > 2`, the
intermediate bars `left + cover + i * spacing` for `i = 1 .. rebar_amount_x - 2`
(Python `range(1, rebar_amount_x - 1)`). -/
def calculateMainBars (floor : FloorData) (boundaries : ℚ × ℚ)
    (base_y height cover : ℚ) : List (ℚ × ℚ × ℚ × ℚ) :=
  let left_x := boundaries.1
  let right_x := boundaries.2
  let column_length := right_x - left_x
  let edge := [(left_x + cover, base_y, base_y + height, floor.rebar_diameter),
               (right_x - cover, base_y, base_y + height, floor.rebar_diameter)]
  if floor.rebar_amount_x > 2 then
    let spacing := (column_length - 2 * cover) / ((floor.rebar_amount_x : ℚ) - 1)
    edge ++ (List.range (floor.rebar_amount_x - 2).toNat).map
      (fun i => (left_x + cover + ((i : ℚ) + 1) * spacing, base_y, base_y + height,
                 floor.rebar_diameter))
  else edge

/-- The floor loop of `ColumnCalculator.calculate_rebar_layout`: walks the
floors together with the per-floor boundaries (the source indexes
`geometry.column_boundaries[i]`, always aligned with `floors` when the
geometry was produced by `calculate_column_geometry`), carrying the running
`current_y`.  Returns `(main_bars, stirrup_positions, lap_lengths)`. -/
def layoutAux (settings : ColumnSettings) :
    List FloorData → List (ℚ × ℚ) → ℚ →
      List (ℚ × ℚ × ℚ × ℚ) × List (ℚ × String × ℚ) × List (ℚ × ℚ × ℚ)
  | [], _, _ => ([], [], [])
  | _ :: _, [], _ => ([], [], [])
  | floor :: rest, b :: bs, current_y =>
    let bars := calculateMainBars floor b current_y floor.total_height
      settings.concrete_cover
    let stirrups := calculateStirrups floor current_y floor.total_height
      settings.beam_depth
    let laps :=
      if rest.isEmpty then []
      else [(current_y + floor.total_height - settings.beam_depth / 2,
             calculateLapLength floor.rebar_diameter, floor.rebar_diameter)]
    let tail := layoutAux settings rest bs (current_y + floor.total_height)
    (bars ++ tail.1, stirrups ++ tail.2.1, laps ++ tail.2.2)

/-- Embedding of `ColumnCalculator.calculate_rebar_layout`. -/
def calculateRebarLayout (floors : List FloorData) (geometry : ColumnGeometry)
    (settings : ColumnSettings) : RebarLayout :=
  let r := layoutAux settings floors geometry.column_boundaries geometry.base_point.2.1
  { main_bars := r.1, stirrup_positions := r.2.1, lap_lengths := r.2.2 }

/-- Embedding of `ColumnCalculator._calculate_section_rebar_positions`.
Coordinates are real numbers (the circular branch uses `math.pi`, `cos`,
`sin`).  A `none` result models the Python `ZeroDivisionError`: in the
rectangular branch the spacing divides by `rebar_amount_x - 1` and
`rebar_amount_y - 1` (zero when a count is 1); in the circular branch the
angle step divides by `rebar_amount_x` (zero when the count is 0). -/
noncomputable def sectionRebarPositions (floor : FloorData) : Option (List (ℝ × ℝ)) :=
  let length : ℝ := (floor.column_length : ℝ)
  let cover : ℝ := 25
  if floor.column_width > 0 then
    if floor.rebar_amount_x = 1 ∨ floor.rebar_amount_y = 1 then none
    else
      let x_spacing := ((floor.column_length : ℝ) - 2 * cover) / ((floor.rebar_amount_x : ℝ) - 1)
      let y_spacing := ((floor.column_width : ℝ) - 2 * cover) / ((floor.rebar_amount_y : ℝ) - 1)
      some ((List.range floor.rebar_amount_x.toNat).flatMap fun i : ℕ =>
        (List.range floor.rebar_amount_y.toNat).map fun j : ℕ =>
          (cover + (i : ℝ) * x_spacing, cover + (j : ℝ) * y_spacing))
  else
    if floor.rebar_amount_x = 0 then none
    else
      let radius := length / 2 - cover
      let angle_step := 2 * Real.pi / (floor.rebar_amount_x : ℝ)
      some ((List.range floor.rebar_amount_x.toNat).map fun i : ℕ =>
        (length / 2 + radius * Real.cos ((i : ℝ) * angle_step),
         length / 2 + radius * Real.sin ((i : ℝ) * angle_step)))

/-- Embedding of the dictionary returned by
`ColumnCalculator.calculate_section_dimensions`. -/
structure SectionDimensions where
  length : ℚ
  width : ℚ
  scale : ℚ
  rebar_positions : List (ℝ × ℝ)
  is_circular : Bool

/-- Embedding of `ColumnCalculator.calculate_section_dimensions`; `none`
propagates the `ZeroDivisionError` of `_calculate_section_rebar_positions`. -/
noncomputable def calculateSectionDimensions (floor : FloorData) (scale : ℚ) :
    Option SectionDimensions :=
  (sectionRebarPositions floor).map fun pos =>
    { length := floor.column_length
      width := if floor.column_width > 0 then floor.column_width else floor.column_length
      scale := scale
      rebar_positions := pos
      is_circular := floor.column_width == 0 }

namespace Entities

/-- Embedding of `entities.column.Point3D` with real coordinates (the rebar
entity takes square roots of coordinate differences). -/
structure Point3D where
  x : ℝ
  y : ℝ
  z : ℝ

/-- Embedding of `entities.rebar.Rebar`. -/
structure Rebar where
  diameter : ℝ
  start_point : Point3D
  end_point : Point3D
  grade : String := "500"

/-- Embedding of `Rebar.length`: the Python `(dx**2 + dy**2 + dz**2) ** 0.5`,
which on the nonnegative sum of squares is the square root. -/
noncomputable def Rebar.length (r : Rebar) : ℝ :=
  Real.sqrt ((r.end_point.x - r.start_point.x) ^ 2 +
    (r.end_point.y - r.start_point.y) ^ 2 +
    (r.end_point.z - r.start_point.z) ^ 2)

/-- Embedding of `entities.rebar.RebarLayout` (the entity-model class of the
same name as the calculator's result dataclass). -/
structure RebarLayout where
  main_bars : List Rebar := []
  links : List Rebar := []
  main_bars_x : ℤ := 0
  main_bars_y : ℤ := 0

/-- Embedding of `entities.rebar.RebarLayout.get_total_weight`, faithful to
the arithmetic of the source line by line: per bar,
`area = pi * (d / 2) ** 2`, `volume = area * length / 1000` (the source
comment says this converts to cubic metres), summed and multiplied by the
density.  The source module `rebar.py` never imports `math`, so running this
method would raise `NameError`; the embedding supplies `π` to expose the
numeric value the formula denotes. -/
noncomputable def RebarLayout.get_total_weight (l : RebarLayout) (density : ℝ := 7850) : ℝ :=
  (((l.main_bars ++ l.links).map
    (fun bar => Real.pi * (bar.diameter / 2) ^ 2 * bar.length / 1000)).sum) * density

/-- Embedding of `entities.column.ColumnFloor` (the fields the embedded
methods read). -/
structure ColumnFloor where
  name : String := "Floor"
  height : ℝ := 0
  length : ℝ := 0
  width : ℝ := 0
  reinforcement : Option RebarLayout := none

/-- Embedding of `ColumnSection._calculate_rectangular_positions`.  `none`
models the `ZeroDivisionError` raised when a positive bar count equals 1
(spacing divides by `count - 1`); with no reinforcement the method returns
leaving the positions empty. -/
noncomputable def calculateRectangularPositions (floor : ColumnFloor) (cover : ℝ) :
    Option (List Point3D) :=
  match floor.reinforcement with
  | none => some []
  | some r =>
    let x_count := r.main_bars_x
    let y_count := r.main_bars_y
    if x_count > 0 ∧ y_count > 0 then
      if x_count = 1 ∨ y_count = 1 then none
      else
        let x_spacing := (floor.length - 2 * cover) / ((x_count : ℝ) - 1)
        let y_spacing := (floor.width - 2 * cover) / ((y_count : ℝ) - 1)
        some ((List.range x_count.toNat).flatMap fun i : ℕ =>
          ((List.range y_count.toNat).filter fun j : ℕ =>
            !((i == 0 || (i : ℤ) == x_count - 1) && (j == 0 || (j : ℤ) == y_count - 1))).map
            fun j : ℕ => ⟨cover + (i : ℝ) * x_spacing, cover + (j : ℝ) * y_spacing, 0⟩)
    else some []

/-- Embedding of `entities.stirrup.Stirrup`; corner positions of the
rectangular entities only involve field arithmetic, so rational coordinates
`(x, y, z)` suffice. -/
structure Stirrup where
  diameter : ℚ
  positions : List (ℚ × ℚ × ℚ)
  elevation : ℚ
  deriving Repr, DecidableEq

/-- Embedding of the `RectangularStirrup` constructor: four corners around
`(center_x, elevation)` from the width and height, then
`super().__init__(diameter, positions, elevation)`. -/
def mkRectangularStirrup (diameter elevation width height center_x : ℚ) : Stirrup :=
  let left := center_x - width / 2
  let right := center_x + width / 2
  let bottom := elevation - height / 2
  let top := elevation + height / 2
  { diameter := diameter
    positions := [(left, bottom, 0), (right, bottom, 0), (right, top, 0), (left, top, 0)]
    elevation := elevation }

/-- Embedding of `entities.stirrup.StirrupPattern` (mutable state modelled as
a record updated functionally). -/
structure StirrupPattern where
  stirrups : List Stirrup := []
  diameter : ℚ := 8
  edge_spacing : ℚ := 100
  mid_spacing : ℚ := 150
  deriving Repr, DecidableEq

/-- Fuel-indexed translation of one `while` loop of
`StirrupPattern.generate_rectangular_pattern`: same loop structure as the
calculator's `stirrupZoneFuel`, but each iteration appends a full
`RectangularStirrup` at the current elevation. -/
def patternZoneFuel (spacing bound diameter width cheight center_x : ℚ) :
    ℕ → ℚ → List Stirrup
  | 0, _ => []
  | n + 1, cur =>
    if cur < bound then
      mkRectangularStirrup diameter cur width cheight center_x ::
        patternZoneFuel spacing bound diameter width cheight center_x n (cur + spacing)
    else []

/-- One full stirrup zone loop of `generate_rectangular_pattern`, run to
completion (same fuel as the calculator's loop). -/
def patternZoneRun (spacing bound diameter width cheight center_x cur : ℚ) :
    List Stirrup :=
  patternZoneFuel spacing bound diameter width cheight center_x
    (zoneFuel spacing bound cur) cur

/-- Embedding of `StirrupPattern.generate_rectangular_pattern`: clears the
stirrup list (`self.stirrups.clear()`), then runs the three tiered-zone
loops, each appending `RectangularStirrup(self.diameter, current_y, width,
column_width, center_x)`. -/
def generateRectangularPattern (p : StirrupPattern)
    (start_y height beam_depth width column_width center_x : ℚ) : StirrupPattern :=
  let net_height := height - beam_depth
  let third_height := net_height / 3
  let bottom := patternZoneRun p.edge_spacing (start_y + third_height) p.diameter width
    column_width center_x (start_y + p.edge_spacing)
  let middle := patternZoneRun p.mid_spacing (start_y + 2 * third_height) p.diameter width
    column_width center_x (start_y + third_height + p.mid_spacing)
  let top := patternZoneRun p.edge_spacing (start_y + height) p.diameter width
    column_width center_x (start_y + 2 * third_height + p.edge_spacing)
  { p with stirrups := bottom ++ middle ++ top }

end Entities

namespace Validation

/-- Embedding of the floor dictionary consumed by
`DataValidator.validate_column_data`: a Python `dict`, so every field is
optional (`none` models an absent key). -/
structure FloorDict where
  total_height : Option ℚ := none
  column_length : Option ℚ := none
  column_width : Option ℚ := none
  floor_name : Option String := none
  rebar_amount : Option ℤ := none
  rebar_amount_x : Option ℤ := none
  rebar_amount_y : Option ℤ := none
  rebar_diameter : Option ℚ := none
  stirrup_diameter : Option ℚ := none
  concrete_cover : Option ℚ := none
  edge_stirrup_spacing : Option ℚ := none
  mid_stirrup_spacing : Option ℚ := none
  deriving Repr, DecidableEq

/-- Embedding of the settings dictionary consumed by
`DataValidator._validate_settings`. -/
structure SettingsDict where
  beam_depth : Option ℚ := none
  beam_extension : Option ℚ := none
  concrete_cover : Option ℚ := none
  scale : Option ℚ := none
  spacing_between_columns : Option ℚ := none
  deriving Repr, DecidableEq

/-- Embedding of the data dictionary passed to `validate_column_data`. -/
structure ColumnDataDict where
  settings : SettingsDict := {}
  floors : List FloorDict := []
  deriving Repr, DecidableEq

/-- Embedding of the validation result dictionary. -/
structure ValidationResult where
  is_valid : Bool
  errors : List String
  warnings : List String
  deriving Repr, DecidableEq

/-- Embedding of `DataValidator.limits`: the fixed range table, keyed by
value type. -/
def limits : String → Option (ℚ × ℚ)
  | "column_length" => some (100, 5000)
  | "column_width" => some (0, 5000)
  | "floor_height" => some (2000, 50000)
  | "rebar_diameter" => some (6, 50)
  | "stirrup_diameter" => some (6, 16)
  | "concrete_cover" => some (20, 100)
  | "spacing" => some (50, 500)
  | _ => none

/-- Embedding of `DataValidator._is_in_range`. -/
def isInRange (value : ℚ) (value_type : String) : Bool :=
  match limits value_type with
  | some (lo, hi) => decide (lo ≤ value ∧ value ≤ hi)
  | none => true

/-- Embedding of `DataValidator._calculate_expected_rebars`. -/
def calculateExpectedRebars (amount_x amount_y : ℤ) : ℤ :=
  if amount_x > 0 ∧ amount_y > 0 then 2 * amount_x + 2 * max 0 (amount_y - 2)
  else if amount_x > 0 ∧ amount_y = 0 then amount_x
  else 0

/-- Embedding of `DataValidator._validate_settings` (error message text kept
up to the interpolated numeric value). -/
def validateSettings (settings : SettingsDict) : List String :=
  (if settings.beam_depth.isNone then ["Missing required setting: beam_depth"] else [])
    ++ (if settings.beam_extension.isNone then
          ["Missing required setting: beam_extension"] else [])
    ++ (if settings.concrete_cover.isNone then
          ["Missing required setting: concrete_cover"] else [])
    ++ (if settings.scale.isNone then ["Missing required setting: scale"] else [])
    ++ (if settings.spacing_between_columns.isNone then
          ["Missing required setting: spacing_between_columns"] else [])
    ++ (match settings.beam_depth with
        | some v => if !isInRange v "floor_height" then ["Beam depth is out of range"] else []
        | none => [])
    ++ (match settings.concrete_cover with
        | some v => if !isInRange v "concrete_cover" then
            ["Concrete cover is out of range"] else []
        | none => [])

/-- Embedding of `DataValidator._validate_floor` for the floor at (0-based)
index `i`; the error strings carry the 1-based floor number as in the
source. -/
def validateFloor (floor : FloorDict) (i : ℕ) : List String :=
  let pre := "Floor " ++ toString (i + 1) ++ ": "
  (if floor.total_height.isNone then [pre ++ "Missing total_height"] else [])
    ++ (if floor.column_length.isNone then [pre ++ "Missing column_length"] else [])
    ++ (if floor.floor_name.isNone then [pre ++ "Missing floor_name"] else [])
    ++ (if floor.rebar_amount.isNone then [pre ++ "Missing rebar_amount"] else [])
    ++ (if floor.rebar_diameter.isNone then [pre ++ "Missing rebar_diameter"] else [])
    ++ (match floor.total_height with
        | some v => if !isInRange v "floor_height" then
            [pre ++ "Height is out of range"] else []
        | none => [])
    ++ (match floor.column_length with
        | some v => if !isInRange v "column_length" then
            [pre ++ "Length is out of range"] else []
        | none => [])
    ++ (match floor.column_width with
        | some v => if v > 0 ∧ !isInRange v "column_width" then
            [pre ++ "Width is out of range"] else []
        | none => [])
    ++ (match floor.rebar_diameter with
        | some v => if !isInRange v "rebar_diameter" then
            [pre ++ "Rebar diameter is out of range"] else []
        | none => [])
    ++ (match floor.stirrup_diameter with
        | some v => if !isInRange v "stirrup_diameter" then
            [pre ++ "Stirrup diameter is out of range"] else []
        | none => [])
    ++ (match floor.rebar_amount, floor.rebar_amount_x, floor.rebar_amount_y with
        | some amount, some ax, some ay =>
          let expected := calculateExpectedRebars ax ay
          if amount ≠ expected then
            [pre ++ "Rebar amount mismatch. Expected " ++ toString expected ++
              ", got " ++ toString amount]
          else []
        | _, _, _ => [])

/-- Embedding of `DataValidator._check_floor_warnings`. -/
def checkFloorWarnings (floor : FloorDict) (i : ℕ) : List String :=
  let pre := "Floor " ++ toString (i + 1) ++ ": "
  (match floor.column_length, floor.column_width with
    | some len, some _ =>
      let cover := floor.concrete_cover.getD 25
      if cover * 2 ≥ len then
        [pre ++ "Concrete cover may be too large for column length"] else []
    | _, _ => [])
    ++ (match floor.edge_stirrup_spacing, floor.mid_stirrup_spacing with
        | some e, some m =>
          (if e < 75 then [pre ++ "Edge stirrup spacing is very small"] else [])
            ++ (if m > 300 then [pre ++ "Mid stirrup spacing is large"] else [])
        | _, _ => [])

/-- The `for i, floor in enumerate(data['floors'])` error-collection loop of
`validate_column_data`. -/
def floorsErrors : List FloorDict → ℕ → List String
  | [], _ => []
  | floor :: rest, i => validateFloor floor i ++ floorsErrors rest (i + 1)

/-- The warning-collection loop of `validate_column_data`. -/
def floorsWarnings : List FloorDict → ℕ → List String
  | [], _ => []
  | floor :: rest, i => checkFloorWarnings floor i ++ floorsWarnings rest (i + 1)

/-- Embedding of `DataValidator.validate_column_data`. -/
def validateColumnData (data : ColumnDataDict) : ValidationResult :=
  let errors := validateSettings data.settings ++ floorsErrors data.floors 0
  let warnings := floorsWarnings data.floors 0
  { is_valid := errors.length == 0, errors := errors, warnings := warnings }

end Validation

/-- A default floor record (used as the `getD` fallback in statements about
list indexing; all indexed accesses in the theorems are guarded by bounds
hypotheses). -/
def dfltFloor : FloorData :=
  { total_height := 0, column_length := 0, column_width := 0, floor_name := ""
    rebar_amount := 0, rebar_amount_x := 0, rebar_amount_y := 0, rebar_diameter := 0
    edge_stirrup_spacing := 0, mid_stirrup_spacing := 0, stirrup_diameter := 0 }

/-- Concrete settings used by the witness theorems (the §8 scenario of the
spec, with a beam depth that also passes the validator's range check). -/
def exSettings : ColumnSettings :=
  { beam_depth := 500, beam_extension := 100, concrete_cover := 25, scale := 1
    spacing_between_columns := 1000, foundation_depth := 1000
    foundation_cover := 50, section_scale := 1 }

/-- Concrete floor used by the witness theorems (the §8 scenario of the
spec). -/
def exFloor : FloorData :=
  { total_height := 3000, column_length := 400, column_width := 400
    floor_name := "F1", rebar_amount := 12, rebar_amount_x := 4
    rebar_amount_y := 4, rebar_diameter := 20, edge_stirrup_spacing := 100
    mid_stirrup_spacing := 150, stirrup_diameter := 8 }

/-- A second concrete floor, taller than `exFloor`. -/
def exFloor2 : FloorData :=
  { exFloor with total_height := 3500, floor_name := "F2" }

/-! ### Supporting lemmas on the stirrup zone loops -/

/-- Faithfulness of the fueled translation: for a positive spacing,
`stirrupZoneRun` satisfies exactly the unfolding equation of the source
`while` loop. -/
theorem stirrupZoneRun_eq (spacing bound : ℚ) (zone : String) (d cur : ℚ)
    (hs : 0 < spacing) :
    stirrupZoneRun spacing bound zone d cur =
      if cur < bound then
        (cur, zone, d) :: stirrupZoneRun spacing bound zone d (cur + spacing)
      else [] := by
  unfold stirrupZoneRun zoneFuel
  rw [if_pos hs, if_pos hs]
  by_cases hcur : cur < bound
  · rw [if_pos hcur]
    show stirrupZoneFuel spacing bound zone d (_ + 1) cur = _
    rw [stirrupZoneFuel, if_pos hcur]
    have hded : (bound - (cur + spacing)) / spacing = (bound - cur) / spacing - 1 := by
      field_simp
      ring
    have hpos : (0 : ℚ) < (bound - cur) / spacing :=
      div_pos (sub_pos.mpr hcur) hs
    have hceil : 1 ≤ Int.ceil ((bound - cur) / spacing) := Int.ceil_pos.mpr hpos
    have hnat : (Int.ceil ((bound - cur) / spacing)).toNat =
        (Int.ceil ((bound - (cur + spacing)) / spacing)).toNat + 1 := by
      rw [hded, Int.ceil_sub_one]
      omega
    rw [hnat]
  · rw [if_neg hcur]
    show stirrupZoneFuel spacing bound zone d (_ + 1) cur = _
    rw [stirrupZoneFuel, if_neg hcur]

/-- Every position emitted by a zone loop lies strictly below the zone's
bound, whatever the fuel. -/
theorem stirrupZoneFuel_mem_lt (spacing bound : ℚ) (zone : String) (d : ℚ) :
    ∀ (fuel : ℕ) (cur : ℚ) (t : ℚ × String × ℚ),
      t ∈ stirrupZoneFuel spacing bound zone d fuel cur → t.1 < bound := by
  intro fuel
  induction fuel with
  | zero => intro cur t ht; simp [stirrupZoneFuel] at ht
  | succ n ih =>
    intro cur t ht
    rw [stirrupZoneFuel] at ht
    by_cases hcur : cur < bound
    · rw [if_pos hcur] at ht
      rcases List.mem_cons.mp ht with h | h
      · rw [h]; exact hcur
      · exact ih (cur + spacing) t h
    · rw [if_neg hcur] at ht
      simp at ht

/-- The zone loops of the entity pattern generator and of the calculator run
in lockstep: mapping the elevation over the generated stirrups gives exactly
the calculator's Y-positions, fuel by fuel. -/
theorem patternZoneFuel_map_elevation (spacing bound diameter width cheight
    center_x sd : ℚ) (zone : String) :
    ∀ (fuel : ℕ) (cur : ℚ),
      (Entities.patternZoneFuel spacing bound diameter width cheight center_x
        fuel cur).map Entities.Stirrup.elevation =
      (stirrupZoneFuel spacing bound zone sd fuel cur).map (fun t => t.1) := by
  intro fuel
  induction fuel with
  | zero => intro cur; rfl
  | succ n ih =>
    intro cur
    rw [Entities.patternZoneFuel, stirrupZoneFuel]
    by_cases hcur : cur < bound
    · rw [if_pos hcur, if_pos hcur, List.map_cons, List.map_cons, ih (cur + spacing)]
      rfl
    · rw [if_neg hcur, if_neg hcur]; rfl

/-! ### Supporting lemmas on floor levels -/

/-- Length of the cumulative-levels loop output. -/
theorem levelsFrom_length : ∀ (hs : List ℚ) (cur : ℚ),
    (levelsFrom cur hs).length = hs.length := by
  intro hs
  induction hs with
  | nil => intro cur; rfl
  | cons h t ih => intro cur; simp [levelsFrom, ih]

/-- The cumulative-levels recurrence: each level is the previous level plus
the corresponding height. -/
theorem levels_getD_succ : ∀ (hs : List ℚ) (cur : ℚ) (i : ℕ), i < hs.length →
    (cur :: levelsFrom cur hs).getD (i + 1) 0 =
      (cur :: levelsFrom cur hs).getD i 0 + hs.getD i 0 := by
  intro hs
  induction hs with
  | nil => intro cur i hi; simp at hi
  | cons h t ih =>
    intro cur i hi
    match i with
    | 0 => simp [levelsFrom]
    | j + 1 =>
      have hj : j < t.length := by simpa using hi
      have := ih (cur + h) j hj
      simpa [levelsFrom] using this

/-- `getD` through the height projection of a floor list. -/
theorem getD_map_height (floors : List FloorData) (i : ℕ) (hi : i < floors.length) :
    (floors.map (fun f => f.total_height)).getD i 0 =
      (floors.getD i dfltFloor).total_height := by
  rw [List.getD_eq_getElem _ _ (by simpa using hi), List.getD_eq_getElem _ _ hi,
    List.getElem_map]

/-- Zone-run version of `patternZoneFuel_map_elevation`: both full loops use
the same fuel, so the generated elevations equal the calculator's
Y-positions. -/
theorem patternZoneRun_map_elevation (spacing bound diameter width cheight
    center_x sd cur : ℚ) (zone : String) :
    (Entities.patternZoneRun spacing bound diameter width cheight center_x
      cur).map Entities.Stirrup.elevation =
    (stirrupZoneRun spacing bound zone sd cur).map (fun t => t.1) :=
  patternZoneFuel_map_elevation spacing bound diameter width cheight center_x sd
    zone (zoneFuel spacing bound cur) cur

/-! ### Claim C8: floor levels -/

/-- C8: for a non-empty floor list of strictly positive heights,
`calculate_column_geometry` produces `len(floors) + 1` floor levels starting
at the base Y, with each level the previous one plus that floor's height,
hence strictly increasing. -/
theorem floor_levels_strictly_increasing (floors : List FloorData)
    (settings : ColumnSettings) (base_point : ℚ × ℚ × ℚ)
    (_hne : floors ≠ []) (hpos : ∀ f ∈ floors, 0 < f.total_height) :
    (calculateColumnGeometry floors settings base_point).floor_levels.length
        = floors.length + 1 ∧
    (calculateColumnGeometry floors settings base_point).floor_levels.getD 0 0
        = base_point.2.1 ∧
    ∀ i, i < floors.length →
      (calculateColumnGeometry floors settings base_point).floor_levels.getD (i + 1) 0
          = (calculateColumnGeometry floors settings base_point).floor_levels.getD i 0
            + (floors.getD i dfltFloor).total_height ∧
      (calculateColumnGeometry floors settings base_point).floor_levels.getD i 0
          < (calculateColumnGeometry floors settings base_point).floor_levels.getD (i + 1) 0 := by
  refine ⟨?_, ?_, ?_⟩
  · simp [calculateColumnGeometry, levelsFrom_length]
  · rfl
  · intro i hi
    have hlen : i < (floors.map (fun f => f.total_height)).length := by simpa using hi
    have hrec := levels_getD_succ (floors.map (fun f => f.total_height))
      base_point.2.1 i hlen
    have hmap := getD_map_height floors i hi
    have hstep : (calculateColumnGeometry floors settings base_point).floor_levels.getD (i + 1) 0
        = (calculateColumnGeometry floors settings base_point).floor_levels.getD i 0
          + (floors.getD i dfltFloor).total_height := by
      show (base_point.2.1 :: levelsFrom base_point.2.1
          (floors.map (fun f => f.total_height))).getD (i + 1) 0 = _
      rw [hrec, hmap]
      rfl
    refine ⟨hstep, ?_⟩
    have hmem : floors.getD i dfltFloor ∈ floors := by
      rw [List.getD_eq_getElem _ _ hi]
      exact List.getElem_mem hi
    have hp := hpos _ hmem
    rw [hstep]
    linarith

/-- Witness for C8 at a concrete two-floor column. -/
theorem floor_levels_strictly_increasing_witness :
    ([exFloor, exFloor2] ≠ ([] : List FloorData)) ∧
    (∀ f ∈ [exFloor, exFloor2], 0 < f.total_height) ∧
    ((calculateColumnGeometry [exFloor, exFloor2] exSettings
        (0, 0, 0)).floor_levels.length = 3) := by
  refine ⟨by decide, by decide, ?_⟩
  have h := floor_levels_strictly_increasing [exFloor, exFloor2] exSettings
    (0, 0, 0) (by decide) (by decide)
  exact h.1

/-! ### Claim C9: boundary symmetry -/

/-- C9: every per-floor boundary pair of `calculate_column_geometry` is
centred on the base X, and comes from that floor's own column length. -/
theorem column_boundaries_symmetric (floors : List FloorData)
    (settings : ColumnSettings) (base_point : ℚ × ℚ × ℚ) :
    ∀ b ∈ (calculateColumnGeometry floors settings base_point).column_boundaries,
      (b.1 + b.2) / 2 = base_point.1 ∧
      ∃ f ∈ floors,
        b = (base_point.1 - f.column_length / 2, base_point.1 + f.column_length / 2) := by
  intro b hb
  simp only [calculateColumnGeometry, List.mem_map] at hb
  obtain ⟨f, hf, rfl⟩ := hb
  exact ⟨by ring, f, hf, rfl⟩

/-- Witness for C9 at a concrete one-floor column based at X = 7. -/
theorem column_boundaries_symmetric_witness :
    ((7 - exFloor.column_length / 2, 7 + exFloor.column_length / 2)
        ∈ (calculateColumnGeometry [exFloor] exSettings (7, 0, 0)).column_boundaries) ∧
    (((7 - exFloor.column_length / 2) + (7 + exFloor.column_length / 2)) / 2 = 7) := by
  have hmem : (7 - exFloor.column_length / 2, 7 + exFloor.column_length / 2)
      ∈ (calculateColumnGeometry [exFloor] exSettings (7, 0, 0)).column_boundaries := by
    simp [calculateColumnGeometry]
  have h := column_boundaries_symmetric [exFloor] exSettings (7, 0, 0) _ hmem
  exact ⟨hmem, h.1⟩

/-! ### Claim C2: stirrup position containment -/

/-- A zone loop reaches every position `cur + k * spacing` that lies below
its bound (the intermediate positions are below it as well, the steps being
positive). -/
theorem stirrupZoneRun_mem_iter (spacing bound : ℚ) (zone : String) (d : ℚ)
    (hs : 0 < spacing) :
    ∀ (k : ℕ) (cur : ℚ), cur + (k : ℚ) * spacing < bound →
      (cur + (k : ℚ) * spacing, zone, d) ∈ stirrupZoneRun spacing bound zone d cur := by
  intro k
  induction k with
  | zero =>
    intro cur hcur
    simp only [Nat.cast_zero, zero_mul, add_zero] at hcur ⊢
    rw [stirrupZoneRun_eq _ _ _ _ _ hs, if_pos hcur]
    exact List.mem_cons_self _ _
  | succ n ih =>
    intro cur hcur
    have hstep : (0 : ℚ) < ((n : ℚ) + 1) * spacing := by positivity
    have hcur0 : cur < bound := by
      push_cast at hcur
      nlinarith
    rw [stirrupZoneRun_eq _ _ _ _ _ hs, if_pos hcur0]
    apply List.mem_cons_of_mem
    have heq : cur + ((n + 1 : ℕ) : ℚ) * spacing = (cur + spacing) + (n : ℚ) * spacing := by
      push_cast
      ring
    rw [heq] at hcur ⊢
    exact ih (cur + spacing) hcur

/-- C2 counterexample: with a 3000 mm floor over a 500 mm beam depth and
100/150 mm spacings, the top-third loop of `_calculate_stirrups` runs to the
full floor height, so stirrup positions exceed the usable height
`base_y + (height - beam_depth)` (the loop reaches 8900/3 ≈ 2966.7 > 2500). -/
theorem stirrups_within_usable_height_cex :
    ¬ (∀ t ∈ calculateStirrups exFloor 0 3000 500, t.1 ≤ 0 + (3000 - 500)) := by
  intro h
  have hmem := stirrupZoneRun_mem_iter 100 (0 + 3000) "edge" 8 (by norm_num) 12
    (0 + 2 * ((3000 - 500) / 3) + 100) (by norm_num)
  have hmem2 : ((0 + 2 * ((3000 - 500) / 3) + 100 + ((12 : ℕ) : ℚ) * 100 : ℚ),
      ("edge" : String), (8 : ℚ)) ∈ calculateStirrups exFloor 0 3000 500 := by
    simp only [calculateStirrups, exFloor]
    exact List.mem_append_right _ hmem
  have hle := h _ hmem2
  norm_num at hle

/-- C2, amended: stirrup positions stay strictly below the floor's full
height `base_y + height` (the top-third loop deliberately runs into the beam
zone, bounded by the full height rather than the usable height). -/
theorem stirrups_below_floor_top (floor : FloorData) (base_y height beam_depth : ℚ)
    (_hh : 0 < height) (_he : 0 < floor.edge_stirrup_spacing)
    (_hm : 0 < floor.mid_stirrup_spacing) (hb0 : 0 ≤ beam_depth)
    (_hbh : beam_depth < height) :
    ∀ t ∈ calculateStirrups floor base_y height beam_depth,
      t.1 < base_y + height := by
  intro t ht
  simp only [calculateStirrups, stirrupZoneRun, List.mem_append] at ht
  rcases ht with (h | h) | h
  · have hlt := stirrupZoneFuel_mem_lt _ _ _ _ _ _ _ h
    have : (height - beam_depth) / 3 ≤ height := by linarith
    linarith
  · have hlt := stirrupZoneFuel_mem_lt _ _ _ _ _ _ _ h
    have : 2 * ((height - beam_depth) / 3) ≤ height := by linarith
    linarith
  · exact stirrupZoneFuel_mem_lt _ _ _ _ _ _ _ h

/-- Witness for the amended C2 at the concrete §8 scenario floor. -/
theorem stirrups_below_floor_top_witness :
    ((0 : ℚ) < 3000 ∧ 0 < exFloor.edge_stirrup_spacing ∧
      0 < exFloor.mid_stirrup_spacing ∧ (0 : ℚ) ≤ 500 ∧ (500 : ℚ) < 3000) ∧
    ∀ t ∈ calculateStirrups exFloor 0 3000 500, t.1 < 0 + 3000 :=
  ⟨⟨by norm_num, by decide, by decide, by norm_num, by norm_num⟩,
    stirrups_below_floor_top exFloor 0 3000 500 (by norm_num) (by decide)
      (by decide) (by norm_num) (by norm_num)⟩

/-! ### Claim C3: pattern generator matches calculator Y-positions -/

/-- C3: for matching spacings, the elevations of the stirrups generated by
`StirrupPattern.generate_rectangular_pattern` are exactly the Y-positions
produced by `ColumnCalculator._calculate_stirrups`. -/
theorem pattern_elevations_match_calculator (p : Entities.StirrupPattern)
    (floor : FloorData) (start_y height beam_depth width column_width center_x : ℚ)
    (he : floor.edge_stirrup_spacing = p.edge_spacing)
    (hm : floor.mid_stirrup_spacing = p.mid_spacing) :
    ((Entities.generateRectangularPattern p start_y height beam_depth width
      column_width center_x).stirrups.map Entities.Stirrup.elevation) =
    (calculateStirrups floor start_y height beam_depth).map (fun t => t.1) := by
  simp only [Entities.generateRectangularPattern, calculateStirrups, List.map_append,
    he, hm]
  congr 1
  congr 1
  · exact patternZoneRun_map_elevation _ _ _ _ _ _ floor.stirrup_diameter _ "edge"
  · exact patternZoneRun_map_elevation _ _ _ _ _ _ floor.stirrup_diameter _ "mid"
  · exact patternZoneRun_map_elevation _ _ _ _ _ _ floor.stirrup_diameter _ "edge"

/-- Witness for C3: a concrete pattern with the default 100/150 spacings and
the §8 scenario floor. -/
theorem pattern_elevations_match_calculator_witness :
    (exFloor.edge_stirrup_spacing = (({} : Entities.StirrupPattern)).edge_spacing ∧
      exFloor.mid_stirrup_spacing = (({} : Entities.StirrupPattern)).mid_spacing) ∧
    ((Entities.generateRectangularPattern {} 0 3000 500 350 350
      0).stirrups.map Entities.Stirrup.elevation) =
    (calculateStirrups exFloor 0 3000 500).map (fun t => t.1) :=
  ⟨⟨by decide, by decide⟩,
    pattern_elevations_match_calculator {} exFloor 0 3000 500 350 350 0
      (by decide) (by decide)⟩

/-! ### Claim C4: lap lengths -/

/-- Closed form of the levels list by index: the `i`-th level is the base
plus the first `i` heights. -/
theorem floor_levels_getD_closed : ∀ (hs : List ℚ) (cur : ℚ) (i : ℕ), i ≤ hs.length →
    (cur :: levelsFrom cur hs).getD i 0 = cur + (hs.take i).sum := by
  intro hs
  induction hs with
  | nil =>
    intro cur i hi
    simp only [List.length_nil, Nat.le_zero] at hi
    subst hi
    simp
  | cons h t ih =>
    intro cur i hi
    match i with
    | 0 => simp
    | j + 1 =>
      have hj : j ≤ t.length := by simpa using hi
      have := ih (cur + h) j hj
      simp only [levelsFrom, List.getD_cons_succ, List.take_succ_cons, List.sum_cons]
      rw [this]
      ring

/-- The lap-length component of the floor loop has one entry per floor except
the last. -/
theorem layoutAux_laps_length (settings : ColumnSettings) :
    ∀ (floors : List FloorData) (bs : List (ℚ × ℚ)) (cur : ℚ),
      bs.length = floors.length →
      (layoutAux settings floors bs cur).2.2.length = floors.length - 1 := by
  intro floors
  induction floors with
  | nil => intro bs cur _; rfl
  | cons f rest ih =>
    intro bs cur hlen
    match bs with
    | [] => simp at hlen
    | b :: bs2 =>
      have hlen2 : bs2.length = rest.length := by simpa using hlen
      match rest with
      | [] =>
        simp [layoutAux]
      | r :: rs =>
        have := ih (bs2) (cur + f.total_height) hlen2
        simp only [layoutAux, List.isEmpty_cons, List.length_cons] at this ⊢
        simp [this]

/-- The `i`-th lap descriptor of the floor loop: emitted at the running base
of floor `i` plus that floor's height minus half the beam depth, with the
lap length of that floor's bar diameter. -/
theorem layoutAux_laps_getD (settings : ColumnSettings) :
    ∀ (floors : List FloorData) (bs : List (ℚ × ℚ)) (cur : ℚ) (i : ℕ),
      bs.length = floors.length → i + 1 < floors.length →
      (layoutAux settings floors bs cur).2.2.getD i (0, 0, 0) =
        (cur + ((floors.take i).map (fun f => f.total_height)).sum
            + (floors.getD i dfltFloor).total_height - settings.beam_depth / 2,
          calculateLapLength (floors.getD i dfltFloor).rebar_diameter,
          (floors.getD i dfltFloor).rebar_diameter) := by
  intro floors
  induction floors with
  | nil => intro bs cur i _ hi; simp at hi
  | cons f rest ih =>
    intro bs cur i hlen hi
    match bs with
    | [] => simp at hlen
    | b :: bs2 =>
      have hlen2 : bs2.length = rest.length := by simpa using hlen
      have hrest : ¬ rest.isEmpty := by
        match rest with
        | [] => simp at hi
        | r :: rs => simp
      match i with
      | 0 =>
        simp [layoutAux, hrest]
      | j + 1 =>
        have hj : j + 1 < rest.length := by simpa using hi
        have := ih bs2 (cur + f.total_height) j hlen2 hj
        simp only [layoutAux, hrest, Bool.false_eq_true, if_false, List.singleton_append,
          List.getD_cons_succ, List.take_succ_cons, List.map_cons, List.sum_cons,
          List.getD_cons_succ]
        rw [this]
        congr 1
        ring

/-- C4: `_calculate_lap_length` is `max(40 d, 300)`, and `calculate_rebar_layout`
emits one lap descriptor per floor except the top one, at that floor's base
level plus its height minus half the beam depth, carrying that floor's bar
diameter. -/
theorem lap_lengths_characterized (floors : List FloorData)
    (settings : ColumnSettings) (base_point : ℚ × ℚ × ℚ) :
    (∀ d : ℚ, calculateLapLength d = max (40 * d) 300) ∧
    (calculateRebarLayout floors
        (calculateColumnGeometry floors settings base_point) settings).lap_lengths.length
      = floors.length - 1 ∧
    ∀ i, i + 1 < floors.length →
      (calculateRebarLayout floors
          (calculateColumnGeometry floors settings base_point) settings).lap_lengths.getD i (0, 0, 0)
        = ((calculateColumnGeometry floors settings base_point).floor_levels.getD i 0
              + (floors.getD i dfltFloor).total_height - settings.beam_depth / 2,
            max (40 * (floors.getD i dfltFloor).rebar_diameter) 300,
            (floors.getD i dfltFloor).rebar_diameter) := by
  have hblen : (floors.map (fun f =>
      (base_point.1 - f.column_length / 2, base_point.1 + f.column_length / 2))).length
        = floors.length := by simp
  refine ⟨fun d => rfl, ?_, ?_⟩
  · exact layoutAux_laps_length settings floors _ base_point.2.1 hblen
  · intro i hi
    have hlap := layoutAux_laps_getD settings floors _ base_point.2.1 i hblen hi
    have hlev := floor_levels_getD_closed (floors.map (fun f => f.total_height))
      base_point.2.1 i (by simp; omega)
    have htake : ((floors.map (fun f => f.total_height)).take i).sum
        = ((floors.take i).map (fun f => f.total_height)).sum := by
      rw [List.map_take]
    show (layoutAux settings floors (floors.map (fun f =>
        (base_point.1 - f.column_length / 2, base_point.1 + f.column_length / 2)))
        base_point.2.1).2.2.getD i (0, 0, 0)
      = ((base_point.2.1 :: levelsFrom base_point.2.1
            (floors.map (fun f => f.total_height))).getD i 0
          + (floors.getD i dfltFloor).total_height - settings.beam_depth / 2,
        max (40 * (floors.getD i dfltFloor).rebar_diameter) 300,
        (floors.getD i dfltFloor).rebar_diameter)
    rw [hlap, hlev, htake]
    rfl

/-- Witness for C4 on a two-floor column: the single lap descriptor sits at
the first floor's base plus its height minus half the beam depth. -/
theorem lap_lengths_characterized_witness :
    (0 + 1 < [exFloor, exFloor2].length) ∧
    ((calculateRebarLayout [exFloor, exFloor2]
        (calculateColumnGeometry [exFloor, exFloor2] exSettings (0, 0, 0))
        exSettings).lap_lengths.getD 0 (0, 0, 0)
      = ((calculateColumnGeometry [exFloor, exFloor2] exSettings
            (0, 0, 0)).floor_levels.getD 0 0
            + ([exFloor, exFloor2].getD 0 dfltFloor).total_height
            - exSettings.beam_depth / 2,
          max (40 * ([exFloor, exFloor2].getD 0 dfltFloor).rebar_diameter) 300,
          ([exFloor, exFloor2].getD 0 dfltFloor).rebar_diameter)) :=
  ⟨by norm_num,
    (lap_lengths_characterized [exFloor, exFloor2] exSettings (0, 0, 0)).2.2 0
      (by norm_num)⟩

/-! ### Claim C5: rebar-count validation -/

/-- Under a rebar-amount mismatch, `_validate_floor` ends in the mismatch
error, so its error list is nonempty. -/
theorem validateFloor_mismatch_ne_nil (floor : Validation.FloorDict) (i : ℕ)
    (a x y : ℤ) (ha : floor.rebar_amount = some a)
    (hx : floor.rebar_amount_x = some x) (hy : floor.rebar_amount_y = some y)
    (hne : a ≠ Validation.calculateExpectedRebars x y) :
    Validation.validateFloor floor i ≠ [] := by
  simp only [Validation.validateFloor, ha, hx, hy]
  rw [if_pos hne]
  intro h
  simp only [List.append_eq_nil] at h
  exact absurd h.2 (by simp)

/-- A floor with a nonempty error list makes the enumerated floor loop's
error list nonempty. -/
theorem floorsErrors_ne_nil (floor : Validation.FloorDict) :
    ∀ (floors : List Validation.FloorDict) (i : ℕ), floor ∈ floors →
      (∀ j, Validation.validateFloor floor j ≠ []) →
      Validation.floorsErrors floors i ≠ [] := by
  intro floors
  induction floors with
  | nil => intro i hmem _; simp at hmem
  | cons f rest ih =>
    intro i hmem hne
    rcases List.mem_cons.mp hmem with h | h
    · subst h
      simp only [Validation.floorsErrors]
      intro hcontra
      exact hne i (List.append_eq_nil.mp hcontra).1
    · simp only [Validation.floorsErrors]
      intro hcontra
      exact ih (i + 1) h hne (List.append_eq_nil.mp hcontra).2

/-- C5: the expected rebar count is `2x + 2·max(0, y−2)` when both grid
counts are positive, `x` when only X is set, and `0` otherwise; a floor whose
`rebar_amount` differs from it forces a validation error and `is_valid =
false`; and `is_valid` is true exactly when the error list is empty,
regardless of warnings. -/
theorem rebar_count_validation :
    (∀ x y : ℤ, 0 < x → 0 < y →
      Validation.calculateExpectedRebars x y = 2 * x + 2 * max 0 (y - 2)) ∧
    (∀ x : ℤ, 0 < x → Validation.calculateExpectedRebars x 0 = x) ∧
    (∀ x y : ℤ, x ≤ 0 ∨ y < 0 → Validation.calculateExpectedRebars x y = 0) ∧
    (∀ (data : Validation.ColumnDataDict) (floor : Validation.FloorDict)
      (a x y : ℤ), floor ∈ data.floors →
      floor.rebar_amount = some a → floor.rebar_amount_x = some x →
      floor.rebar_amount_y = some y →
      a ≠ Validation.calculateExpectedRebars x y →
      (Validation.validateColumnData data).errors ≠ [] ∧
        (Validation.validateColumnData data).is_valid = false) ∧
    (∀ data : Validation.ColumnDataDict,
      (Validation.validateColumnData data).is_valid = true ↔
        (Validation.validateColumnData data).errors = []) := by
  refine ⟨?_, ?_, ?_, ?_, ?_⟩
  · intro x y hx hy
    simp only [Validation.calculateExpectedRebars]
    rw [if_pos ⟨hx, hy⟩]
  · intro x hx
    simp only [Validation.calculateExpectedRebars]
    split_ifs with h1 h2
    · exact absurd h1.2 (lt_irrefl 0)
    · rfl
    · exact absurd ⟨hx, trivial⟩ h2
  · intro x y hxy
    simp only [Validation.calculateExpectedRebars]
    split_ifs with h1 h2
    · rcases h1 with ⟨hx1, hy1⟩
      rcases hxy with h | h <;> omega
    · rcases h2 with ⟨hx2, hy2⟩
      rcases hxy with h | h <;> omega
    · rfl
  · intro data floor a x y hmem ha hx hy hne
    have hfl : ∀ j, Validation.validateFloor floor j ≠ [] :=
      fun j => validateFloor_mismatch_ne_nil floor j a x y ha hx hy hne
    have herr : (Validation.validateColumnData data).errors ≠ [] := by
      simp only [Validation.validateColumnData]
      intro hcontra
      exact floorsErrors_ne_nil floor data.floors 0 hmem hfl
        (List.append_eq_nil.mp hcontra).2
    refine ⟨herr, ?_⟩
    simp only [Validation.validateColumnData] at herr ⊢
    simpa [List.length_eq_zero] using herr
  · intro data
    simp only [Validation.validateColumnData]
    simp [List.length_eq_zero]

/-- The spec's validation scenario floor: `rebar_amount = 10` against grid
counts 4 × 4 (expected 12). -/
def exFloorDictBad : Validation.FloorDict :=
  { total_height := some 3000, column_length := some 400
    column_width := some 400, floor_name := some "F1"
    rebar_amount := some 10, rebar_amount_x := some 4
    rebar_amount_y := some 4, rebar_diameter := some 20
    stirrup_diameter := some 8, edge_stirrup_spacing := some 100
    mid_stirrup_spacing := some 150 }

/-- A complete, in-range settings dictionary. -/
def exSettingsDict : Validation.SettingsDict :=
  { beam_depth := some 2000, beam_extension := some 100
    concrete_cover := some 25, scale := some 1
    spacing_between_columns := some 1000 }

/-- The spec's validation scenario data. -/
def exDataBad : Validation.ColumnDataDict :=
  { settings := exSettingsDict, floors := [exFloorDictBad] }

/-- Witness for C5: the spec's validation scenario (`rebar_amount = 10`,
`x = 4`, `y = 4`, expected 12) fails validation. -/
theorem rebar_count_validation_witness :
    Validation.calculateExpectedRebars 4 4 = 12 ∧
    exFloorDictBad ∈ exDataBad.floors ∧
    ((10 : ℤ) ≠ Validation.calculateExpectedRebars 4 4) ∧
    (Validation.validateColumnData exDataBad).is_valid = false := by
  refine ⟨?_, List.mem_singleton.mpr rfl, by decide, ?_⟩
  · have h := rebar_count_validation.1 4 4 (by norm_num) (by norm_num)
    rw [h]
    norm_num
  · exact (rebar_count_validation.2.2.2.1 exDataBad exFloorDictBad 10 4 4
      (List.mem_singleton.mpr rfl) rfl rfl rfl (by decide)).2

/-! ### Claim C6: dense grid versus perimeter-only section layouts -/

/-- The index grid `range m × range n`, in the row-major order of both
nested Python loops. -/
def gridPairs (m n : ℕ) : List (ℕ × ℕ) :=
  (List.range m).flatMap fun i => (List.range n).map fun j => (i, j)

/-- The corner-skip condition of `_calculate_rectangular_positions`, on grid
indices. -/
def isCornerPair (m n : ℕ) (p : ℕ × ℕ) : Bool :=
  (p.1 == 0 || p.1 == m - 1) && (p.2 == 0 || p.2 == n - 1)

/-- The index grid has `m * n` entries. -/
theorem gridPairs_length (m n : ℕ) : (gridPairs m n).length = m * n := by
  simp [gridPairs, List.length_flatMap, Function.comp_def, List.map_const,
    List.sum_replicate, smul_eq_mul, Nat.mul_comm]

/-- Dropping the two endpoints of `range n` leaves `n - 2` elements. -/
theorem range_filter_not_ends_length (n : ℕ) (hn : 2 ≤ n) :
    ((List.range n).filter (fun j => !(j == 0 || j == n - 1))).length = n - 2 := by
  obtain ⟨k, rfl⟩ : ∃ k, n = k + 2 := ⟨n - 2, by omega⟩
  rw [List.range_succ, List.filter_append]
  have hlast : List.filter (fun j => !(j == 0 || j == k + 2 - 1)) [k + 1] = [] := by
    simp
  have hcong : ∀ j ∈ List.range (k + 1),
      (!(j == 0 || j == k + 2 - 1)) = (!(j == 0)) := by
    intro j hj
    have hlt : j < k + 1 := List.mem_range.mp hj
    have hne : (j == k + 2 - 1) = false := by
      simp only [beq_eq_false_iff_ne, ne_eq]
      omega
    simp only [hne, Bool.or_false]
  rw [List.filter_congr hcong, hlast, List.range_succ_eq_map]
  have hzero : ((0 : ℕ) == 0) = true := rfl
  rw [List.filter_cons, List.filter_map]
  have hall : List.filter ((fun j => !(j == 0)) ∘ Nat.succ) (List.range k)
      = List.range k := by
    apply List.filter_eq_self.mpr
    intro j _
    simp
  simp [hall]

/-- Row `i` of the grid, filtered by the corner skip, has `n - 2` entries in
the first and last rows and `n` entries elsewhere. -/
theorem grid_row_filter_length (m n i : ℕ) (hn : 2 ≤ n) :
    (((List.range n).map (fun j => (i, j))).filter
        (fun p => !(isCornerPair m n p))).length
      = if i = 0 ∨ i = m - 1 then n - 2 else n := by
  rw [List.filter_map, List.length_map]
  by_cases hi : i = 0 ∨ i = m - 1
  · rw [if_pos hi]
    have hedge : (i == 0 || i == m - 1) = true := by
      rcases hi with h | h <;> simp [h]
    have hcong : ∀ j ∈ List.range n,
        ((fun p => !(isCornerPair m n p)) ∘ (fun j => (i, j))) j
          = (fun j => !(j == 0 || j == n - 1)) j := by
      intro j _
      simp only [Function.comp_apply, isCornerPair, hedge, Bool.true_and]
    rw [List.filter_congr hcong]
    exact range_filter_not_ends_length n hn
  · rw [if_neg hi]
    push_neg at hi
    have hedge : (i == 0 || i == m - 1) = false := by
      simp only [Bool.or_eq_false_iff, beq_eq_false_iff_ne, ne_eq]
      exact hi
    have hcong : ∀ j ∈ List.range n,
        ((fun p => !(isCornerPair m n p)) ∘ (fun j => (i, j))) j
          = (fun _ => true) j := by
      intro j _
      simp only [Function.comp_apply, isCornerPair, hedge, Bool.false_and,
        Bool.not_false]
    rw [List.filter_congr hcong]
    simp

/-- Summing the per-row counts: `2 (n - 2) + (m - 2) n = m n - 4`. -/
theorem sum_row_counts (m n : ℕ) (hm : 2 ≤ m) (hn : 2 ≤ n) :
    ((List.range m).map (fun i => if i = 0 ∨ i = m - 1 then n - 2 else n)).sum
      = m * n - 4 := by
  obtain ⟨t, rfl⟩ : ∃ t, m = t + 2 := ⟨m - 2, by omega⟩
  obtain ⟨s, rfl⟩ : ∃ s, n = s + 2 := ⟨n - 2, by omega⟩
  rw [List.range_succ, List.map_append, List.sum_append, List.range_succ_eq_map,
    List.map_cons, List.sum_cons, List.map_map]
  have hmid : (List.range t).map
      ((fun i => if i = 0 ∨ i = t + 2 - 1 then s + 2 - 2 else s + 2) ∘ Nat.succ)
        = (List.range t).map (fun _ => s + 2) := by
    apply List.map_congr_left
    intro j hj
    have hlt : j < t := List.mem_range.mp hj
    have : ¬ (j + 1 = 0 ∨ j + 1 = t + 2 - 1) := by omega
    simp only [Function.comp_apply, Nat.succ_eq_add_one]
    rw [if_neg this]
  rw [hmid]
  have hconst : ((List.range t).map (fun _ => s + 2)).sum = t * (s + 2) := by
    rw [show (fun _ : ℕ => s + 2) = Function.const ℕ (s + 2) from rfl,
      List.map_const, List.sum_replicate, List.length_range, smul_eq_mul]
  rw [hconst]
  have h0 : ((0 : ℕ) = 0 ∨ (0 : ℕ) = t + 2 - 1) := Or.inl rfl
  have hl : (t + 1 = 0 ∨ t + 1 = t + 2 - 1) := Or.inr (by omega)
  rw [if_pos h0]
  simp only [List.map_cons, List.map_nil, List.sum_cons, List.sum_nil]
  rw [if_pos hl]
  have hmul : (t + 2) * (s + 2) = t * s + 2 * t + 2 * s + 4 := by ring
  have hmul2 : t * (s + 2) = t * s + 2 * t := by ring
  omega

/-- The corner-skipped grid has `m n - 4` entries. -/
theorem gridPairs_filter_corner_length (m n : ℕ) (hm : 2 ≤ m) (hn : 2 ≤ n) :
    ((gridPairs m n).filter (fun p => !(isCornerPair m n p))).length
      = m * n - 4 := by
  rw [gridPairs, List.filter_flatMap, List.length_flatMap]
  have hcong : (List.range m).map
      (List.length ∘ fun i => List.filter (fun p => !(isCornerPair m n p))
        ((List.range n).map fun j => (i, j)))
        = (List.range m).map (fun i => if i = 0 ∨ i = m - 1 then n - 2 else n) := by
    apply List.map_congr_left
    intro i _
    exact grid_row_filter_length m n i hn
  rw [hcong, sum_row_counts m n hm hn]

/-- C6: for a rectangular floor with grid counts `m, n ≥ 2`, the calculator's
`_calculate_section_rebar_positions` returns the full dense `m × n` grid
(corner points included), while the entity model's
`_calculate_rectangular_positions` returns the same grid minus exactly the
four corner grid points, both with the same `cover + index × spacing`
coordinates (`m n` versus `m n - 4` positions). -/
theorem section_grid_vs_entity (floor : FloorData) (r : Entities.RebarLayout)
    (cf : Entities.ColumnFloor) (m n : ℕ) (hm : 2 ≤ m) (hn : 2 ≤ n)
    (hw : 0 < floor.column_width)
    (hx : floor.rebar_amount_x = (m : ℤ)) (hy : floor.rebar_amount_y = (n : ℤ))
    (hrx : r.main_bars_x = (m : ℤ)) (hry : r.main_bars_y = (n : ℤ))
    (hcf : cf.reinforcement = some r)
    (hL : cf.length = (floor.column_length : ℝ))
    (hW : cf.width = (floor.column_width : ℝ)) :
    sectionRebarPositions floor = some ((gridPairs m n).map (fun p =>
      (25 + (p.1 : ℝ) * (((floor.column_length : ℝ) - 2 * 25) / ((m : ℝ) - 1)),
       25 + (p.2 : ℝ) * (((floor.column_width : ℝ) - 2 * 25) / ((n : ℝ) - 1))))) ∧
    Entities.calculateRectangularPositions cf 25 = some
      (((gridPairs m n).filter (fun p => !(isCornerPair m n p))).map (fun p =>
        (⟨25 + (p.1 : ℝ) * (((floor.column_length : ℝ) - 2 * 25) / ((m : ℝ) - 1)),
          25 + (p.2 : ℝ) * (((floor.column_width : ℝ) - 2 * 25) / ((n : ℝ) - 1)),
          0⟩ : Entities.Point3D))) ∧
    ((gridPairs m n).map (fun p =>
      (25 + (p.1 : ℝ) * (((floor.column_length : ℝ) - 2 * 25) / ((m : ℝ) - 1)),
       25 + (p.2 : ℝ) * (((floor.column_width : ℝ) - 2 * 25) / ((n : ℝ) - 1))))).length
      = m * n ∧
    (((gridPairs m n).filter (fun p => !(isCornerPair m n p))).map (fun p =>
      (⟨25 + (p.1 : ℝ) * (((floor.column_length : ℝ) - 2 * 25) / ((m : ℝ) - 1)),
        25 + (p.2 : ℝ) * (((floor.column_width : ℝ) - 2 * 25) / ((n : ℝ) - 1)),
        0⟩ : Entities.Point3D))).length = m * n - 4 := by
  refine ⟨?_, ?_, ?_, ?_⟩
  · have hguard : ¬(floor.rebar_amount_x = 1 ∨ floor.rebar_amount_y = 1) := by
      rw [hx, hy]; omega
    simp only [sectionRebarPositions]
    rw [if_pos hw, if_neg hguard]
    congr 1
    rw [hx, hy, gridPairs, List.map_flatMap]
    simp only [Int.toNat_natCast, List.map_map, Function.comp_def, Int.cast_natCast]
  · have hpos : (m : ℤ) > 0 ∧ (n : ℤ) > 0 := by omega
    have hguard : ¬((m : ℤ) = 1 ∨ (n : ℤ) = 1) := by omega
    simp only [Entities.calculateRectangularPositions, hcf]
    rw [hrx, hry, hL, hW]
    rw [if_pos hpos, if_neg hguard]
    congr 1
    rw [gridPairs, List.filter_flatMap, List.map_flatMap]
    simp only [Int.toNat_natCast, List.filter_map, List.map_map, Function.comp_def,
      Int.cast_natCast]
    have hpred : ∀ i j : ℕ,
        (!((i == 0 || (i : ℤ) == (m : ℤ) - 1) && (j == 0 || (j : ℤ) == (n : ℤ) - 1)))
          = !(isCornerPair m n (i, j)) := by
      intro i j
      have h1 : ((i : ℤ) == (m : ℤ) - 1) = (i == m - 1) := by
        rw [Bool.eq_iff_iff]
        simp only [beq_iff_eq]
        omega
      have h2 : ((j : ℤ) == (n : ℤ) - 1) = (j == n - 1) := by
        rw [Bool.eq_iff_iff]
        simp only [beq_iff_eq]
        omega
      simp [isCornerPair, h1, h2]
    congr 1
    funext i
    congr 1
    apply List.filter_congr
    intro j _
    exact hpred i j
  · rw [List.length_map, gridPairs_length]
  · rw [List.length_map, gridPairs_filter_corner_length m n hm hn]

/-- The entity-model reinforcement record used by the C6 witness: a 4 × 4
grid. -/
def exRebarLayoutEnt : Entities.RebarLayout :=
  { main_bars := [], links := [], main_bars_x := 4, main_bars_y := 4 }

/-- The entity-model floor used by the C6 witness, dimensionally matching
`exFloor`. -/
def exColumnFloor : Entities.ColumnFloor :=
  { name := "F1", height := 3000, length := 400, width := 400
    reinforcement := some exRebarLayoutEnt }

/-- Witness for C6 at the §8 scenario floor: 16 dense-grid positions versus
12 corner-skipped positions. -/
theorem section_grid_vs_entity_witness :
    (2 ≤ 4 ∧ (0 : ℚ) < exFloor.column_width) ∧
    (∃ l, sectionRebarPositions exFloor = some l ∧ l.length = 16) ∧
    (∃ l, Entities.calculateRectangularPositions exColumnFloor 25 = some l ∧
      l.length = 12) := by
  have h := section_grid_vs_entity exFloor exRebarLayoutEnt exColumnFloor 4 4
    (by norm_num) (by norm_num) (by decide) (by decide) (by decide) rfl rfl rfl
    (by norm_num [exColumnFloor, exFloor]) (by norm_num [exColumnFloor, exFloor])
  exact ⟨⟨by norm_num, by decide⟩, ⟨_, h.1, by simpa using h.2.2.1⟩,
    ⟨_, h.2.1, by simpa using h.2.2.2⟩⟩

/-! ### Claim C7: count-1 floors divide by zero yet pass validation -/

/-- A floor dictionary with grid counts 1 × 1 and the matching
`rebar_amount = 2`, all range-checked fields in range. -/
def exFloorDictDiv : Validation.FloorDict :=
  { exFloorDictBad with
    rebar_amount := some 2
    rebar_amount_x := some 1
    rebar_amount_y := some 1 }

/-- Column data holding only `exFloorDictDiv`, with complete in-range
settings. -/
def exDataDiv : Validation.ColumnDataDict :=
  { settings := exSettingsDict, floors := [exFloorDictDiv] }

/-- The `FloorData` record corresponding to `exFloorDictDiv`. -/
def exFloorDiv : FloorData :=
  { exFloor with rebar_amount := 2, rebar_amount_x := 1, rebar_amount_y := 1 }

/-- C7: a rectangular floor with a grid count of 1 on either axis drives
`_calculate_section_rebar_positions` (and hence
`calculate_section_dimensions`) into a division by zero; the validator's
range tables place no minimum on rebar counts, so such a floor passes
validation; and counts ≥ 2 on both axes are exactly what rules the division
out. -/
theorem section_count_one_division_by_zero :
    (∀ floor : FloorData, 0 < floor.column_width →
      (floor.rebar_amount_x = 1 ∨ floor.rebar_amount_y = 1) →
      sectionRebarPositions floor = none ∧
        calculateSectionDimensions floor 1 = none) ∧
    (Validation.validateColumnData exDataDiv).is_valid = true ∧
    (∀ floor : FloorData, 0 < floor.column_width →
      2 ≤ floor.rebar_amount_x → 2 ≤ floor.rebar_amount_y →
      (sectionRebarPositions floor).isSome = true) := by
  refine ⟨?_, ?_, ?_⟩
  · intro floor hw h1
    have hnone : sectionRebarPositions floor = none := by
      simp only [sectionRebarPositions]
      rw [if_pos hw, if_pos h1]
    exact ⟨hnone, by simp [calculateSectionDimensions, hnone]⟩
  · decide
  · intro floor hw hx hy
    have hguard : ¬(floor.rebar_amount_x = 1 ∨ floor.rebar_amount_y = 1) := by omega
    simp only [sectionRebarPositions]
    rw [if_pos hw, if_neg hguard]
    rfl

/-- Witness for C7: the concrete 1 × 1 floor divides by zero while the
4 × 4 floor does not. -/
theorem section_count_one_division_by_zero_witness :
    ((0 : ℚ) < exFloorDiv.column_width ∧
      (exFloorDiv.rebar_amount_x = 1 ∨ exFloorDiv.rebar_amount_y = 1)) ∧
    sectionRebarPositions exFloorDiv = none ∧
    (sectionRebarPositions exFloor).isSome = true := by
  refine ⟨⟨by decide, Or.inl (by decide)⟩, ?_, ?_⟩
  · exact (section_count_one_division_by_zero.1 exFloorDiv (by decide)
      (Or.inl (by decide))).1
  · exact section_count_one_division_by_zero.2.2 exFloor (by decide) (by decide)
      (by decide)

/-! ### Claim C1: entity-model rebar weight -/

/-- The single vertical 20 mm bar of the spec's weight round-trip scenario:
endpoints 3000 mm apart. -/
def exRebar : Entities.Rebar :=
  { diameter := 20, start_point := ⟨0, 0, 0⟩, end_point := ⟨0, 3000, 0⟩ }

/-- An entity-model layout holding only `exRebar`. -/
def exRebarLayoutSingle : Entities.RebarLayout :=
  { main_bars := [exRebar], links := [] }

/-- C1 (code bug): evaluated on the single 20 mm × 3000 mm bar at density
7850, the formula of `RebarLayout.get_total_weight` yields `2355000 π`
(≈ 7.4 million, the `/ 1000` converting neither cubic millimetres nor the
final product into the kilograms its comment promises), which is not within
0.01 of the 7.40 kg the specification states. -/
theorem rebar_weight_formula_off :
    Entities.RebarLayout.get_total_weight exRebarLayoutSingle 7850
      = 2355000 * Real.pi ∧
    ¬ (|Entities.RebarLayout.get_total_weight exRebarLayoutSingle 7850 - 7.40|
        ≤ 0.01) := by
  have hlen : exRebar.length = 3000 := by
    simp only [Entities.Rebar.length, exRebar]
    rw [show ((0 : ℝ) - 0) ^ 2 + (3000 - 0) ^ 2 + (0 - 0) ^ 2 = 3000 ^ 2 by norm_num,
      Real.sqrt_sq (by norm_num)]
  have hval : Entities.RebarLayout.get_total_weight exRebarLayoutSingle 7850
      = 2355000 * Real.pi := by
    simp only [Entities.RebarLayout.get_total_weight, exRebarLayoutSingle,
      List.append_nil, List.map_cons, List.map_nil, List.sum_cons, List.sum_nil,
      hlen]
    show (Real.pi * (exRebar.diameter / 2) ^ 2 * 3000 / 1000 + 0) * 7850 = _
    have hd : exRebar.diameter = 20 := rfl
    rw [hd]
    ring
  refine ⟨hval, ?_⟩
  rw [hval]
  intro habs
  have hub := (abs_le.mp habs).2
  have hpi := Real.pi_gt_three
  nlinarith

/-! ### Claim C10: pattern generation clears previous stirrups -/

/-- C10: `generate_rectangular_pattern` clears the stirrup list first, so a
second identical call leaves exactly the state of a single call. -/
theorem generate_rectangular_pattern_idempotent (p : Entities.StirrupPattern)
    (start_y height beam_depth width column_width center_x : ℚ) :
    Entities.generateRectangularPattern
      (Entities.generateRectangularPattern p start_y height beam_depth width
        column_width center_x)
      start_y height beam_depth width column_width center_x =
    Entities.generateRectangularPattern p start_y height beam_depth width
      column_width center_x := rfl

end AutoCad
